import Mathlib

/-!
Shallow embedding of the fixed-deposit calculator core from
`src/src/components/fd-calculator.tsx`: the maturity calculation inside
`onSubmit` (lines 144-180), the form schema's compounding enum (line 64),
the label-to-frequency lookup (lines 150-155), the advisory tooltip flow
(`getFdTooltip` / `fdTooltipFlow`, lines 506-525) and the
`getPrevailingInterestRate` tool (lines 456-477).

Numbers are modelled as real numbers (the source computes with JS doubles
and the spec's algorithm is stated over reals); `Math.pow` with a real
exponent is `Real.rpow`.  The external text-generation service is the only
effectful dependency: it is passed in explicitly as a function returning
`Except`, where `Except.error` models a thrown error, a timeout, or the
`output!` non-null assertion failing on malformed data.  `onSubmitTraced`
additionally records, in order, every request issued to the generation
service, so that claims about the number of generation calls are statable.
-/

namespace FdCalc

/-- The compounding enum admitted by the zod form schema (line 64 of
`fd-calculator.tsx`). -/
inductive Compounding where
  | annually
  | semiAnnually
  | quarterly
  | monthly
deriving DecidableEq, Repr

/-- The label-to-frequency object literal in `onSubmit` (lines 150-155):
`{ annually: 1, "semi-annually": 2, quarterly: 4, monthly: 12 }`. -/
def frequencyOf : Compounding → ℕ
  | .annually => 1
  | .semiAnnually => 2
  | .quarterly => 4
  | .monthly => 12

/-- The JS string label of each enum value, as it appears in the schema and
in the object-literal keys. -/
def compoundingLabel : Compounding → String
  | .annually => "annually"
  | .semiAnnually => "semi-annually"
  | .quarterly => "quarterly"
  | .monthly => "monthly"

/-- The raw JS object lookup `{...}[compounding]` applied to an arbitrary
string key: `undefined` (here `none`) on any key other than the four the
object defines. -/
def frequencyLookup (s : String) : Option ℕ :=
  if s = "annually" then some 1
  else if s = "semi-annually" then some 2
  else if s = "quarterly" then some 4
  else if s = "monthly" then some 12
  else none

/-- The zod enum validator of the form schema (line 64): accepts exactly the
four compounding labels. -/
def validCompoundingLabel (s : String) : Bool :=
  s == "annually" || s == "semi-annually" || s == "quarterly" || s == "monthly"

/-- Validated form values, as delivered by the zod-validated form to
`onSubmit` (the `FormValues` type, line 67). -/
structure FormValues where
  principal : ℝ
  rate : ℝ
  period : ℝ
  compounding : Compounding

/-- The numeric result triple: principal echoed, maturity amount, and total
interest (the spec's `DepositResult`). -/
structure DepositResult where
  principal : ℝ
  maturityAmount : ℝ
  totalInterest : ℝ

/-- The maturity calculation of `onSubmit`, lines 157-161:
`r = rate / 100`, `t = period`,
`maturityAmount = principal * Math.pow(1 + r / n, n * t)`,
`totalInterest = maturityAmount - principal`. -/
noncomputable def compute (principal rate period : ℝ) (n : ℕ) : DepositResult :=
  let r := rate / 100
  let t := period
  let maturityAmount := principal * (1 + r / (n : ℝ)) ^ ((n : ℝ) * t)
  let totalInterest := maturityAmount - principal
  ⟨principal, maturityAmount, totalInterest⟩

/-- The input record sent to `getFdTooltip` (`FdTooltipInputSchema`,
lines 441-446). -/
structure FdTooltipInput where
  fdAmount : ℝ
  interestRate : ℝ
  period : ℝ
  maturityAmount : ℝ

/-- The structured response of the tooltip flow (`FdTooltipOutputSchema`,
lines 450-452): a single string field, where the empty string is the
service's own "no anomaly" signal. -/
structure FdTooltipOutput where
  tooltipMessage : String

/-- The external text-generation service behind `fdTooltipPrompt`:
one request/response call.  `Except.error` models any failure of the call
(network error, timeout, or malformed output making `output!` throw in
`fdTooltipFlow`, line 514). -/
def GenService : Type := FdTooltipInput → Except String FdTooltipOutput

/-- The `CalculationResult` interface (lines 69-74). -/
structure CalculationResult where
  principal : ℝ
  maturityAmount : ℝ
  totalInterest : ℝ
  tooltipMessage : Option String

/-- The request `onSubmit` sends to `getFdTooltip` (lines 165-170):
`{ fdAmount: principal, interestRate: rate, period: t, maturityAmount }`. -/
noncomputable def tooltipRequest (v : FormValues) : FdTooltipInput :=
  ⟨v.principal, v.rate, v.period,
    (compute v.principal v.rate v.period (frequencyOf v.compounding)).maturityAmount⟩

/-- `onSubmit` (lines 144-180), instrumented: the first component is the
`CalculationResult` passed to `setResult`, the second lists every request
issued to the generation service during the submission.  The source calls
`getFdTooltip` exactly once, unconditionally, inside a `try` block; the
result's `tooltipMessage` is set only when the response message is truthy
(a non-empty string), and stays `null` when the call throws. -/
noncomputable def onSubmitTraced (gen : GenService) (v : FormValues) :
    CalculationResult × List FdTooltipInput :=
  let res := compute v.principal v.rate v.period (frequencyOf v.compounding)
  let req := tooltipRequest v
  let tooltipMessage : Option String :=
    match gen req with
    | .ok resp => if resp.tooltipMessage = "" then none else some resp.tooltipMessage
    | .error _ => none
  (⟨res.principal, res.maturityAmount, res.totalInterest, tooltipMessage⟩, [req])

/-- The `CalculationResult` a submission produces (the value `onSubmit`
passes to `setResult`, line 178). -/
noncomputable def onSubmit (gen : GenService) (v : FormValues) : CalculationResult :=
  (onSubmitTraced gen v).1

open Classical in
/-- The `getPrevailingInterestRate` tool (lines 456-477): a step function of
the period — `period <= 1` gives 5, `period <= 3` gives 6, otherwise 7. -/
noncomputable def getPrevailingInterestRate (period : ℝ) : ℝ :=
  if period ≤ 1 then 5 else if period ≤ 3 then 6 else 7

/-- Modelled from the spec: the advisory deviation rule.  In the source the
rule exists only as natural-language instructions inside `fdTooltipPrompt`
(lines 485-502) interpreted by the generation model, not as executable
code: it fires when the user's rate differs from the prevailing rate by
more than 2 percentage points, or when the maturity amount deviates from
the simple-interest estimate `fdAmount * (1 + interestRate/100 * period)`;
the source fixes no numeric tolerance for the second sub-rule, so the
spec's recommended 5% relative tolerance is used here. -/
noncomputable def deviationRuleFires (principal rate period maturityAmount : ℝ) : Prop :=
  2 < |rate - getPrevailingInterestRate period| ∨
    0.05 * (principal * (1 + rate / 100 * period)) <
      |maturityAmount - principal * (1 + rate / 100 * period)|

/-- C1: for every input with P > 0, R in (0,100], T > 0, and a compounding
label mapped to n in {1,2,4,12}, the calculation produces
`maturityAmount = P * (1 + (R/100)/n) ^ (n*T)` and
`totalInterest = maturityAmount - P` exactly, with no independent rounding
of the two outputs. -/
theorem maturity_formula_exact (P R T : ℝ) (c : Compounding)
    (hP : 0 < P) (hR : 0 < R) (hR100 : R ≤ 100) (hT : 0 < T) :
    (frequencyOf c = 1 ∨ frequencyOf c = 2 ∨ frequencyOf c = 4 ∨ frequencyOf c = 12) ∧
    (compute P R T (frequencyOf c)).maturityAmount
      = P * (1 + (R / 100) / ((frequencyOf c : ℕ) : ℝ)) ^ (((frequencyOf c : ℕ) : ℝ) * T) ∧
    (compute P R T (frequencyOf c)).totalInterest
      = (compute P R T (frequencyOf c)).maturityAmount - P :=
  ⟨by cases c <;> simp [frequencyOf], rfl, rfl⟩

/-- Witness for C1 at the spec's scenario P = 100000, R = 6.5, T = 5,
annual compounding. -/
theorem maturity_formula_exact_witness :
    (0:ℝ) < 100000 ∧ (0:ℝ) < 6.5 ∧ (6.5:ℝ) ≤ 100 ∧ (0:ℝ) < 5 ∧
    ((frequencyOf .annually = 1 ∨ frequencyOf .annually = 2 ∨
        frequencyOf .annually = 4 ∨ frequencyOf .annually = 12) ∧
      (compute 100000 6.5 5 (frequencyOf .annually)).maturityAmount
        = 100000 * (1 + ((6.5:ℝ) / 100) / ((frequencyOf .annually : ℕ) : ℝ))
            ^ (((frequencyOf .annually : ℕ) : ℝ) * 5) ∧
      (compute 100000 6.5 5 (frequencyOf .annually)).totalInterest
        = (compute 100000 6.5 5 (frequencyOf .annually)).maturityAmount - 100000) :=
  ⟨by norm_num, by norm_num, by norm_num, by norm_num,
    maturity_formula_exact 100000 6.5 5 .annually (by norm_num) (by norm_num)
      (by norm_num) (by norm_num)⟩

/-- C4: the reference-rate lookup is a pure step function of tenure: for
every positive tenure it returns 5 when tenure ≤ 1, 6 when 1 < tenure ≤ 3,
and 7 otherwise; in particular it takes the values 5, 5, 6, 6, 7 at
0.5, 1, 1.5, 3, 3.1. -/
theorem prevailing_rate_step_function (t : ℝ) (ht : 0 < t) :
    (t ≤ 1 → getPrevailingInterestRate t = 5) ∧
    (1 < t → t ≤ 3 → getPrevailingInterestRate t = 6) ∧
    (3 < t → getPrevailingInterestRate t = 7) ∧
    getPrevailingInterestRate 0.5 = 5 ∧
    getPrevailingInterestRate 1 = 5 ∧
    getPrevailingInterestRate 1.5 = 6 ∧
    getPrevailingInterestRate 3 = 6 ∧
    getPrevailingInterestRate 3.1 = 7 := by
  unfold getPrevailingInterestRate
  refine ⟨fun h => if_pos h, fun h1 h3 => ?_, fun h3 => ?_, ?_, ?_, ?_, ?_, ?_⟩
  · rw [if_neg (not_le.2 h1), if_pos h3]
  · rw [if_neg (by linarith : ¬ t ≤ 1), if_neg (not_le.2 h3)]
  all_goals split_ifs <;> norm_num at *

/-- Witness for C4 at tenure 2. -/
theorem prevailing_rate_step_function_witness :
    (0:ℝ) < 2 ∧
    (((2:ℝ) ≤ 1 → getPrevailingInterestRate 2 = 5) ∧
      ((1:ℝ) < 2 → (2:ℝ) ≤ 3 → getPrevailingInterestRate 2 = 6) ∧
      ((3:ℝ) < 2 → getPrevailingInterestRate 2 = 7) ∧
      getPrevailingInterestRate 0.5 = 5 ∧
      getPrevailingInterestRate 1 = 5 ∧
      getPrevailingInterestRate 1.5 = 6 ∧
      getPrevailingInterestRate 3 = 6 ∧
      getPrevailingInterestRate 3.1 = 7) :=
  ⟨by norm_num, prevailing_rate_step_function 2 (by norm_num)⟩

/-- C8: the maturity calculation and the reference-rate lookup are
deterministic and side-effect-free: two evaluations at the same arguments
yield identical outputs, and the numeric triple a submission produces does
not depend on the external generation service — the only effectful
dependency of a submission. -/
theorem calculator_and_lookup_pure :
    (∀ P R T : ℝ, ∀ N : ℕ, compute P R T N = compute P R T N) ∧
    (∀ t : ℝ, getPrevailingInterestRate t = getPrevailingInterestRate t) ∧
    (∀ gen gen' : GenService, ∀ v : FormValues,
      (onSubmit gen v).principal = (onSubmit gen' v).principal ∧
      (onSubmit gen v).maturityAmount = (onSubmit gen' v).maturityAmount ∧
      (onSubmit gen v).totalInterest = (onSubmit gen' v).totalInterest) :=
  ⟨fun _ _ _ _ => rfl, fun _ => rfl, fun _ _ _ => ⟨rfl, rfl, rfl⟩⟩

/-- C9: in every `CalculationResult` a submission produces, the stored
`tooltipMessage` is either `none` or a non-empty string: the truthiness
test in `onSubmit` keeps the empty string (the service's "no anomaly"
signal) and any failure as `none`. -/
theorem tooltip_nonempty_or_null (gen : GenService) (v : FormValues) :
    (onSubmit gen v).tooltipMessage = none ∨
    ∃ s, (onSubmit gen v).tooltipMessage = some s ∧ s ≠ "" := by
  unfold onSubmit onSubmitTraced
  cases hg : gen (tooltipRequest v) with
  | ok resp =>
      by_cases he : resp.tooltipMessage = ""
      · left
        simp [hg, he]
      · right
        exact ⟨resp.tooltipMessage, by simp [hg, he], he⟩
  | error e =>
      left
      simp [hg]

/-- C10: the compounding-label-to-frequency lookup is total on the strings
admitted by the form schema: every label the zod enum accepts maps to a
defined frequency in {1, 2, 4, 12}. -/
theorem compounding_lookup_total (s : String) (h : validCompoundingLabel s = true) :
    ∃ n, frequencyLookup s = some n ∧ (n = 1 ∨ n = 2 ∨ n = 4 ∨ n = 12) := by
  unfold validCompoundingLabel at h
  simp only [Bool.or_eq_true, beq_iff_eq] at h
  rcases h with ((h | h) | h) | h <;> subst h
  · exact ⟨1, by decide, by decide⟩
  · exact ⟨2, by decide, by decide⟩
  · exact ⟨4, by decide, by decide⟩
  · exact ⟨12, by decide, by decide⟩

/-- Witness for C10 at the label "quarterly". -/
theorem compounding_lookup_total_witness :
    validCompoundingLabel "quarterly" = true ∧
    ∃ n, frequencyLookup "quarterly" = some n ∧ (n = 1 ∨ n = 2 ∨ n = 4 ∨ n = 12) :=
  ⟨by decide, compounding_lookup_total "quarterly" (by decide)⟩

/-- Bernoulli step shared by the frequency-monotonicity proof: for
0 ≤ r, 0 ≤ t and 0 < a ≤ b, compounding over more, smaller periods grows
at least as much: `(1 + r/a) ^ (a*t) ≤ (1 + r/b) ^ (b*t)`. -/
theorem compound_growth_mono_in_periods {r t a b : ℝ} (hr : 0 ≤ r) (ht : 0 ≤ t)
    (ha : 0 < a) (hab : a ≤ b) :
    (1 + r / a) ^ (a * t) ≤ (1 + r / b) ^ (b * t) := by
  have hb : 0 < b := lt_of_lt_of_le ha hab
  have ha0 : a ≠ 0 := ha.ne'
  have hb0 : b ≠ 0 := hb.ne'
  have hrb : (0:ℝ) ≤ r / b := div_nonneg hr hb.le
  have hra : (0:ℝ) ≤ r / a := div_nonneg hr ha.le
  have hp : (1:ℝ) ≤ b / a := (one_le_div ha).2 hab
  have hber : 1 + b / a * (r / b) ≤ (1 + r / b) ^ (b / a) :=
    one_add_mul_self_le_rpow_one_add (by linarith) hp
  have heq : b / a * (r / b) = r / a := by
    field_simp
    ring
  rw [heq] at hber
  have h2 : (1 + r / a) ^ (a * t) ≤ ((1 + r / b) ^ (b / a)) ^ (a * t) :=
    Real.rpow_le_rpow (by linarith) hber (by positivity)
  have h3 : ((1 + r / b) ^ (b / a)) ^ (a * t) = (1 + r / b) ^ (b * t) := by
    rw [← Real.rpow_mul (by linarith)]
    congr 1
    field_simp
    ring
  rw [h3] at h2
  exact h2

/-- C5: for P > 0, R in (0,100], T > 0 and frequency N in {1,2,4,12}, the
computed maturity amount is at least P, and strictly greater — equality
can hold only in the limit R → 0. -/
theorem maturity_gt_principal (P R T : ℝ) (N : ℕ)
    (hP : 0 < P) (hR : 0 < R) (hR100 : R ≤ 100) (hT : 0 < T)
    (hN : N = 1 ∨ N = 2 ∨ N = 4 ∨ N = 12) :
    P ≤ (compute P R T N).maturityAmount ∧ P < (compute P R T N).maturityAmount := by
  have hNpos : (0:ℝ) < (N : ℝ) := by
    have h : 0 < N := by rcases hN with h | h | h | h <;> omega
    exact_mod_cast h
  have hbase : 1 < 1 + R / 100 / (N : ℝ) := by
    have h : 0 < R / 100 / (N : ℝ) := by positivity
    linarith
  have hexp : 0 < (N : ℝ) * T := by positivity
  have hpow : 1 < (1 + R / 100 / (N : ℝ)) ^ ((N : ℝ) * T) :=
    (Real.one_lt_rpow_iff_of_pos (by linarith)).2 (Or.inl ⟨hbase, hexp⟩)
  have hlt : P < P * (1 + R / 100 / (N : ℝ)) ^ ((N : ℝ) * T) :=
    lt_mul_of_one_lt_right hP hpow
  exact ⟨le_of_lt hlt, hlt⟩

/-- Witness for C5 at P = 100000, R = 6.5, T = 5, N = 1. -/
theorem maturity_gt_principal_witness :
    (0:ℝ) < 100000 ∧ (0:ℝ) < 6.5 ∧ (6.5:ℝ) ≤ 100 ∧ (0:ℝ) < 5 ∧
    ((1:ℕ) = 1 ∨ (1:ℕ) = 2 ∨ (1:ℕ) = 4 ∨ (1:ℕ) = 12) ∧
    ((100000:ℝ) ≤ (compute 100000 6.5 5 1).maturityAmount ∧
      (100000:ℝ) < (compute 100000 6.5 5 1).maturityAmount) :=
  ⟨by norm_num, by norm_num, by norm_num, by norm_num, by norm_num,
    maturity_gt_principal 100000 6.5 5 1 (by norm_num) (by norm_num) (by norm_num)
      (by norm_num) (by norm_num)⟩

/-- C6: holding P > 0, R > 0, T > 0 fixed, a higher compounding frequency
within {1,2,4,12} never decreases the computed maturity amount. -/
theorem maturity_mono_in_frequency (P R T : ℝ) (N M : ℕ)
    (hP : 0 < P) (hR : 0 < R) (hT : 0 < T)
    (hN : N = 1 ∨ N = 2 ∨ N = 4 ∨ N = 12)
    (hM : M = 1 ∨ M = 2 ∨ M = 4 ∨ M = 12)
    (hNM : N ≤ M) :
    (compute P R T N).maturityAmount ≤ (compute P R T M).maturityAmount := by
  have hNpos : (0:ℝ) < (N : ℝ) := by
    have h : 0 < N := by rcases hN with h | h | h | h <;> omega
    exact_mod_cast h
  have key := compound_growth_mono_in_periods (r := R / 100) (t := T)
    (a := (N : ℝ)) (b := (M : ℝ))
    (by positivity) hT.le hNpos (by exact_mod_cast hNM)
  simp only [compute]
  exact mul_le_mul_of_nonneg_left key hP.le

/-- Witness for C6 at P = 100000, R = 6.5, T = 5, N = 1 against M = 12,
the spec's annual-versus-monthly scenario. -/
theorem maturity_mono_in_frequency_witness :
    (0:ℝ) < 100000 ∧ (0:ℝ) < 6.5 ∧ (0:ℝ) < 5 ∧
    ((1:ℕ) = 1 ∨ (1:ℕ) = 2 ∨ (1:ℕ) = 4 ∨ (1:ℕ) = 12) ∧
    ((12:ℕ) = 1 ∨ (12:ℕ) = 2 ∨ (12:ℕ) = 4 ∨ (12:ℕ) = 12) ∧
    (1:ℕ) ≤ 12 ∧
    (compute 100000 6.5 5 1).maturityAmount ≤ (compute 100000 6.5 5 12).maturityAmount :=
  ⟨by norm_num, by norm_num, by norm_num, by norm_num, by norm_num, by norm_num,
    maturity_mono_in_frequency 100000 6.5 5 1 12 (by norm_num) (by norm_num)
      (by norm_num) (by norm_num) (by norm_num) (by norm_num)⟩

/-- C7: holding the other inputs fixed (P > 0, R > 0, T > 0, N in
{1,2,4,12}), strictly increasing the tenure or the rate strictly increases
the computed maturity amount. -/
theorem maturity_strict_mono_rate_tenure (P R R' T T' : ℝ) (N : ℕ)
    (hP : 0 < P) (hR : 0 < R) (hRR : R < R') (hT : 0 < T) (hTT : T < T')
    (hN : N = 1 ∨ N = 2 ∨ N = 4 ∨ N = 12) :
    (compute P R T N).maturityAmount < (compute P R T' N).maturityAmount ∧
    (compute P R T N).maturityAmount < (compute P R' T N).maturityAmount := by
  have hNpos : (0:ℝ) < (N : ℝ) := by
    have h : 0 < N := by rcases hN with h | h | h | h <;> omega
    exact_mod_cast h
  have hbase : 1 < 1 + R / 100 / (N : ℝ) := by
    have h : 0 < R / 100 / (N : ℝ) := by positivity
    linarith
  constructor
  · have hexp : (N : ℝ) * T < (N : ℝ) * T' := mul_lt_mul_of_pos_left hTT hNpos
    have h := (Real.rpow_lt_rpow_left_iff hbase).2 hexp
    simp only [compute]
    exact mul_lt_mul_of_pos_left h hP
  · have hb2 : 1 + R / 100 / (N : ℝ) < 1 + R' / 100 / (N : ℝ) := by
      have h : R / 100 / (N : ℝ) < R' / 100 / (N : ℝ) :=
        (div_lt_div_iff_of_pos_right hNpos).2 (by linarith)
      linarith
    have h := Real.rpow_lt_rpow (z := (N : ℝ) * T) (by linarith) hb2 (by positivity)
    simp only [compute]
    exact mul_lt_mul_of_pos_left h hP

/-- Witness for C7 at P = 100000, R = 6.5 < 7, T = 5 < 6, N = 1. -/
theorem maturity_strict_mono_rate_tenure_witness :
    (0:ℝ) < 100000 ∧ (0:ℝ) < 6.5 ∧ (6.5:ℝ) < 7 ∧ (0:ℝ) < 5 ∧ (5:ℝ) < 6 ∧
    ((1:ℕ) = 1 ∨ (1:ℕ) = 2 ∨ (1:ℕ) = 4 ∨ (1:ℕ) = 12) ∧
    ((compute 100000 6.5 5 1).maturityAmount < (compute 100000 6.5 6 1).maturityAmount ∧
      (compute 100000 6.5 5 1).maturityAmount < (compute 100000 7 5 1).maturityAmount) :=
  ⟨by norm_num, by norm_num, by norm_num, by norm_num, by norm_num, by norm_num,
    maturity_strict_mono_rate_tenure 100000 6.5 7 5 6 1 (by norm_num) (by norm_num)
      (by norm_num) (by norm_num) (by norm_num) (by norm_num)⟩

/-- C3: if the generation call fails (throws, times out, or returns
malformed data), the submission stores no advisory message and the numeric
triple is still produced, unchanged from the pure calculation; no error is
surfaced. -/
theorem advisory_failure_absorbed (gen : GenService) (v : FormValues) (e : String)
    (hfail : gen (tooltipRequest v) = Except.error e) :
    (onSubmit gen v).tooltipMessage = none ∧
    (onSubmit gen v).principal = v.principal ∧
    (onSubmit gen v).maturityAmount
      = (compute v.principal v.rate v.period (frequencyOf v.compounding)).maturityAmount ∧
    (onSubmit gen v).totalInterest
      = (compute v.principal v.rate v.period (frequencyOf v.compounding)).totalInterest := by
  refine ⟨?_, rfl, rfl, rfl⟩
  unfold onSubmit onSubmitTraced
  simp [hfail]

/-- Witness for C3 with a service that always fails. -/
theorem advisory_failure_absorbed_witness :
    (fun _ => Except.error "timeout" : GenService)
        (tooltipRequest ⟨100000, 6.5, 5, .annually⟩) = Except.error "timeout" ∧
    ((onSubmit (fun _ => Except.error "timeout") ⟨100000, 6.5, 5, .annually⟩).tooltipMessage
        = none ∧
      (onSubmit (fun _ => Except.error "timeout") ⟨100000, 6.5, 5, .annually⟩).principal
        = (100000:ℝ) ∧
      (onSubmit (fun _ => Except.error "timeout") ⟨100000, 6.5, 5, .annually⟩).maturityAmount
        = (compute 100000 6.5 5 (frequencyOf .annually)).maturityAmount ∧
      (onSubmit (fun _ => Except.error "timeout") ⟨100000, 6.5, 5, .annually⟩).totalInterest
        = (compute 100000 6.5 5 (frequencyOf .annually)).totalInterest) :=
  ⟨rfl, advisory_failure_absorbed (fun _ => Except.error "timeout")
    ⟨100000, 6.5, 5, .annually⟩ "timeout" rfl⟩

/-- C2 counterexample: at the spec's own non-firing scenario (P = 100000,
R = 6.5, T = 5, annual compounding, service signalling "no anomaly"), the
deviation rule does not fire and the advisory is "no message" — yet the
submission issues exactly one request to the generation service, not zero:
the rule is evaluated inside the generation call, never before it. -/
theorem advisory_gate_counterexample :
    ¬ deviationRuleFires 100000 6.5 5
        ((onSubmit (fun _ => Except.ok ⟨""⟩) ⟨100000, 6.5, 5, .annually⟩).maturityAmount) ∧
    (onSubmit (fun _ => Except.ok ⟨""⟩) ⟨100000, 6.5, 5, .annually⟩).tooltipMessage = none ∧
    (onSubmitTraced (fun _ => Except.ok ⟨""⟩) ⟨100000, 6.5, 5, .annually⟩).2.length = 1 := by
  have hM : (onSubmit (fun _ => Except.ok ⟨""⟩) ⟨100000, 6.5, 5, .annually⟩).maturityAmount
      = 100000 * (1.065:ℝ) ^ (5:ℕ) := by
    show (100000:ℝ) * (1 + 6.5 / 100 / ((1:ℕ) : ℝ)) ^ (((1:ℕ) : ℝ) * 5)
      = 100000 * (1.065:ℝ) ^ (5:ℕ)
    rw [show ((1:ℕ) : ℝ) = 1 by norm_num, show (1:ℝ) * 5 = ((5:ℕ) : ℝ) by norm_num,
      Real.rpow_natCast]
    norm_num
  refine ⟨?_, by simp [onSubmit, onSubmitTraced], rfl⟩
  unfold deviationRuleFires
  push_neg
  constructor
  · have h7 : getPrevailingInterestRate 5 = 7 := by
      unfold getPrevailingInterestRate
      split_ifs <;> norm_num at *
    rw [h7, abs_le]
    norm_num
  · rw [hM, abs_le]
    norm_num

/-- C2 amended: when the generation service signals "no anomaly" with an
empty message — as the prompt instructs it to when the deviation rule does
not fire — the submission stores no message, and the generation service is
invoked exactly once per submission (never zero times): the rule lives
inside the single generation call. -/
theorem advisory_no_message_single_call (gen : GenService) (v : FormValues)
    (h : gen (tooltipRequest v) = Except.ok ⟨""⟩) :
    (onSubmit gen v).tooltipMessage = none ∧
    (onSubmitTraced gen v).2.length = 1 := by
  constructor
  · unfold onSubmit onSubmitTraced
    simp [h]
  · rfl

/-- Witness for the amended C2 with a service that always signals
"no anomaly". -/
theorem advisory_no_message_single_call_witness :
    (fun _ => Except.ok ⟨""⟩ : GenService)
        (tooltipRequest ⟨100000, 6.5, 5, .annually⟩) = Except.ok ⟨""⟩ ∧
    ((onSubmit (fun _ => Except.ok ⟨""⟩) ⟨100000, 6.5, 5, .annually⟩).tooltipMessage = none ∧
      (onSubmitTraced (fun _ => Except.ok ⟨""⟩) ⟨100000, 6.5, 5, .annually⟩).2.length = 1) :=
  ⟨rfl, advisory_no_message_single_call (fun _ => Except.ok ⟨""⟩)
    ⟨100000, 6.5, 5, .annually⟩ rfl⟩

end FdCalc
